import Mathlib

/-!
Verification of the `kmeans_dpcpp` python binding layer
(`src/python_api/_kmeans_lloyd.cpp`) against its natural-language
specification.

The binding functions are shallowly embedded: a `usm_ndarray` becomes an
`NDArray` record carrying shape, element-type tag, contiguity flag,
allocation-queue id and (rational-valued) payload; each `py_*` wrapper
becomes a Lean function returning `Except String` mirroring the wrapper's
validation sequence and dispatch branches in source order.  Device kernels
whose implementations live in headers outside `src/` are modelled from the
spec, each marked `Modelled from the spec:` in its doc comment.
-/

/-- Element-type tags mirroring the dpctl typenum constants used by the
bindings (`UAR_FLOAT_`, `UAR_DOUBLE_`, `UAR_INT32_`, `UAR_INT64_`, plus a
catch-all for every other typenum). -/
inductive TypeNum
  | float32
  | float64
  | int32
  | int64
  | other
deriving DecidableEq, Repr

/-- Shallow model of `dpctl::tensor::usm_ndarray`: shape vector, element
typenum, C-contiguity flag, allocation queue id, and the element payload
(value-level, rationals standing for the floating-point entries; for
integer-typed arrays the payload is unused by the claims). -/
structure NDArray where
  shape : List Nat
  typenum : TypeNum
  contiguous : Bool
  queue : Nat
  data : List ℚ
deriving DecidableEq, Repr

/-- `usm_ndarray::get_ndim`. -/
def NDArray.ndim (a : NDArray) : Nat := a.shape.length

/-- `usm_ndarray::get_size` (total element count). -/
def NDArray.size (a : NDArray) : Nat := a.shape.prod

/-- `usm_ndarray::get_shape(i)`. -/
def NDArray.dim (a : NDArray) (i : Nat) : Nat := a.shape.getD i 0

/-- `all_c_contiguous` helper of the binding file. -/
def allCContiguous (as : List NDArray) : Bool := as.all (·.contiguous)

/-- `dpctl::utils::queues_are_compatible`: every allocation queue equals the
execution queue. -/
def queuesCompatible (q : Nat) (qs : List Nat) : Bool := qs.all (· == q)

/-- Maximum of a list of rationals (0 for the empty list; the kernels never
consult it on empty data). -/
def listMax : List ℚ → ℚ
  | [] => 0
  | [a] => a
  | a :: b :: t => max a (listMax (b :: t))

/-- Selection by repeated extraction of the current maximum: `selectLargest l k`
is the (k+1)-st largest element of `l` (a partial-selection algorithm, no
full sort). -/
def selectLargest : List ℚ → Nat → ℚ
  | l, 0 => listMax l
  | l, k + 1 => selectLargest (l.erase (listMax l)) k

/-- Modelled from the spec: `compute_threshold_kernel` (declared in
`util_kernels.hpp`, implementation not under `src/`) "finds the value of the
`topk`-th largest element of the distance array (a partial order statistic,
not a full sort)"; realised as iterated maximum extraction. -/
def compute_threshold_kernel (data : List ℚ) (topk : Nat) : ℚ :=
  selectLargest data (topk - 1)

/-- The input sorted in non-increasing order (specification-side definition,
used to state what "t-th largest" means). -/
def sortedDesc (l : List ℚ) : List ℚ := List.insertionSort (· ≥ ·) l

/-- Specification-side definition of the t-th largest element (1-based). -/
def nthLargest (l : List ℚ) (t : Nat) : ℚ := (sortedDesc l).getD (t - 1) 0

/-- Left fold of `f` over `0, …, n-1`, the accumulation pattern of the
reduction kernels. -/
def foldSum (n : Nat) (f : Nat → ℚ) : ℚ :=
  (List.range n).foldl (fun acc c => acc + f c) 0

/-- Modelled from the spec: the per-cluster weight reduction of
`reduce_centroid_data_kernel` (declared in `util_kernels.hpp`, implementation
not under `src/`): output cluster size `k` is the sum of the `n_copies`
private partial sizes for cluster `k`. -/
def reducedClusterSizes (nCopies : Nat) (sizesPC : Nat → Nat → ℚ) (k : Nat) : ℚ :=
  foldSum nCopies (fun c => sizesPC c k)

/-- Modelled from the spec: the per-feature/per-cluster coordinate-sum
reduction of `reduce_centroid_data_kernel` (implementation not under `src/`):
output entry `(f, k)` is the sum across the `n_copies` private copies. -/
def reducedCentroidsT (nCopies : Nat) (sumsPC : Nat → Nat → Nat → ℚ) (f k : Nat) : ℚ :=
  foldSum nCopies (fun c => sumsPC c f k)

/-- Modelled from the spec: the empty-cluster compaction pass of
`reduce_centroid_data_kernel` (implementation not under `src/`): the ids of
clusters whose reduced size is zero, packed into a prefix list. -/
def emptyClustersList (nCopies nClusters : Nat) (sizesPC : Nat → Nat → ℚ) : List Nat :=
  (List.range nClusters).filter (fun k => reducedClusterSizes nCopies sizesPC k = 0)

/-- Modelled from the spec: the empty-cluster counter written by
`reduce_centroid_data_kernel` (implementation not under `src/`). -/
def nEmptyClusters (nCopies nClusters : Nat) (sizesPC : Nat → Nat → ℚ) : Nat :=
  (emptyClustersList nCopies nClusters sizesPC).length

/-- Sample indices whose distance is strictly greater than the threshold, in
index order. -/
def gtIndices (dist : List ℚ) (thr : ℚ) : List Nat :=
  (List.range dist.length).filter (fun i => thr < dist.getD i 0)

/-- Sample indices whose distance equals the threshold, in index order. -/
def eqIndices (dist : List ℚ) (thr : ℚ) : List Nat :=
  (List.range dist.length).filter (fun i => dist.getD i 0 = thr)

/-- Result of the far-sample selection kernel: the populated index buffer and
the two counters `n_selected_gt_threshold`, `n_selected_eq_threshold`. -/
structure SelectResult where
  out : List Nat
  gtCount : Nat
  eqCount : Nat
deriving DecidableEq, Repr

/-- Modelled from the spec: `select_samples_far_from_centroid_kernel`
(declared in `util_kernels.hpp`, implementation not under `src/`): "partitions
sample indices into those strictly greater than the threshold and those
exactly equal to it, writing the strictly-greater indices first and using
equal-to-threshold indices only to fill the remainder up to `n_selected`";
the counters count the strictly-greater and equal-to-threshold samples. -/
def select_samples_far_from_centroid_kernel (dist : List ℚ) (thr : ℚ) (s : Nat) :
    SelectResult :=
  { out := (gtIndices dist thr ++ eqIndices dist thr).take s
    gtCount := (gtIndices dist thr).length
    eqCount := (eqIndices dist thr).length }

/-- Modelled from the spec: `half_l2_norm_kernel` (declared in
`util_kernels.hpp`, implementation not under `src/`): "for each column of M,
computes half the squared L2 norm, producing a vector sized to the column
count"; entry `(i, j)` of the row-major `rows × cols` payload sits at flat
offset `i * cols + j`. -/
def half_l2_norm_kernel_model (rows cols : Nat) (x : List ℚ) : List ℚ :=
  (List.range cols).map (fun j => foldSum rows (fun i => (x.getD (i * cols + j) 0) ^ 2) / 2)

/-- Outcome of `py_compute_threshold` when validation succeeds: the resulting
threshold-buffer contents (`none` when the written value is not determined by
the value-level model, see `py_compute_threshold`), whether a kernel was
submitted, and the element type the dispatched kernel instantiation reads. -/
structure ThresholdResult where
  thresholdOut : Option (List ℚ)
  dispatched : Bool
  kernelElem : Option TypeNum
deriving DecidableEq, Repr

/-- Embedding of `py_compute_threshold` (src/python_api/_kmeans_lloyd.cpp,
lines 252-305), validation checks and dispatch branches in source order.
The `float64` branch mirrors the source's `UAR_DOUBLE_` branch, which
declares `using dataT = float`, instantiates the kernel at `float` and reads
both buffers through `get_data<float>()` (line 293) — a byte-level
reinterpretation of the double payload whose resulting values the
value-level model cannot determine, recorded as `thresholdOut := none`. -/
def py_compute_threshold (data : NDArray) (topk : Nat) (threshold : NDArray)
    (q : Nat) : Except String ThresholdResult :=
  if data.ndim ≠ 1 ∨ allCContiguous [data, threshold] = false then
    .error "Argument data must be a C-contiguous vector"
  else if threshold.size ≠ 1 then
    .error "Argument threshold must be 1-element array"
  else if data.typenum ≠ threshold.typenum then
    .error "Data types of arguments must be the same"
  else if queuesCompatible q [data.queue, threshold.queue] = false then
    .error "Execution queue is not compatible with allocation queues"
  else if topk = 0 then
    .ok { thresholdOut := some threshold.data, dispatched := false, kernelElem := none }
  else if data.typenum = TypeNum.float32 then
    .ok { thresholdOut := some [compute_threshold_kernel data.data topk]
          dispatched := true
          kernelElem := some TypeNum.float32 }
  else if data.typenum = TypeNum.float64 then
    .ok { thresholdOut := none
          dispatched := true
          kernelElem := some TypeNum.float32 }
  else
    .error "Unsupported elemental data type. Expect single- or double- floating-point types."

/-- Outcome of `py_half_l2_norm_squared` when validation succeeds: the vector
written into `y`. -/
structure HalfL2Result where
  out : List ℚ
deriving DecidableEq, Repr

/-- Embedding of `py_half_l2_norm_squared` (src/python_api/_kmeans_lloyd.cpp,
lines 74-118), validation checks in source order; both floating-point
branches invoke the same (spec-modelled) column-norm kernel at value level. -/
def py_half_l2_norm_squared (X y : NDArray) (q : Nat) : Except String HalfL2Result :=
  if X.ndim ≠ 2 ∨ y.ndim ≠ 1 ∨ allCContiguous [X, y] = false then
    .error "Arguments must be a matrix and a vector with C-contiguous layout"
  else if y.dim 0 ≠ X.dim 1 then
    .error "Array dimensions of arguments are not consistent, X.shape[1] != y.shape[0]"
  else if queuesCompatible q [X.queue, y.queue] = false then
    .error "Execution queue is not compatible with allocation queues"
  else if X.typenum ≠ y.typenum then
    .error "Arguments must have the same elemental data types."
  else if y.typenum = TypeNum.float32 ∨ y.typenum = TypeNum.float64 then
    .ok { out := half_l2_norm_kernel_model (X.dim 0) (X.dim 1) X.data }
  else
    .error "Unsupported elemental data type. Expecting single or double precision floating point numbers"

/-- Embedding of `py_select_samples_far_from_centroid`
(src/python_api/_kmeans_lloyd.cpp, lines 307-410), validation checks in
source order; every supported `(dataT, indT)` combination dispatches the
(spec-modelled) selection kernel. -/
def py_select_samples_far_from_centroid (n_selected : Nat)
    (distance_to_centroid threshold selected_samples_idx
     n_selected_gt_threshold n_selected_eq_threshold : NDArray)
    (q : Nat) : Except String SelectResult :=
  if n_selected = 0 then
    .error "Argument `n_selected` must be positive"
  else if distance_to_centroid.ndim ≠ 1 ∨ selected_samples_idx.ndim ≠ 1 ∨
      threshold.size ≠ 1 ∨ n_selected_gt_threshold.size ≠ 1 ∨
      n_selected_eq_threshold.size ≠ 1 then
    .error "Array dimensionalities are not consistent"
  else if distance_to_centroid.dim 0 < n_selected then
    .error "Argument `n_select` is too large"
  else if selected_samples_idx.dim 0 < n_selected then
    .error "Vector `selected_samples_idx` must have size of at least `n_selected` elements"
  else if allCContiguous [distance_to_centroid, selected_samples_idx] = false then
    .error "Arrays must be C-contiguous"
  else if distance_to_centroid.typenum ≠ threshold.typenum then
    .error "Input arrays must have the same elemental data type"
  else if selected_samples_idx.typenum ≠ n_selected_gt_threshold.typenum ∨
      selected_samples_idx.typenum ≠ n_selected_eq_threshold.typenum then
    .error "Output array must have the same elemental data type"
  else if queuesCompatible q [distance_to_centroid.queue, threshold.queue,
      selected_samples_idx.queue, n_selected_gt_threshold.queue,
      n_selected_eq_threshold.queue] = false then
    .error "Execution queue is not compatible with allocation queues"
  else if (distance_to_centroid.typenum = TypeNum.float32 ∨
           distance_to_centroid.typenum = TypeNum.float64) ∧
          (selected_samples_idx.typenum = TypeNum.int32 ∨
           selected_samples_idx.typenum = TypeNum.int64) then
    .ok (select_samples_far_from_centroid_kernel distance_to_centroid.data
          (threshold.data.getD 0 0) n_selected)
  else
    .error "Unsupported data types"

/-- Labels for the eight array arguments of `py_relocate_empty_clusters`,
used to record which arguments its keep-alive event retains. -/
inductive RelocArg
  | xT
  | sampleWeights
  | assignmentId
  | emptyClustersListArg
  | sqDistToNearestCentroid
  | centroidT
  | clusterSizes
  | perSampleInertia
deriving DecidableEq, Repr

/-- The argument list the source passes to `keep_args_alive` in
`py_relocate_empty_clusters` (src/python_api/_kmeans_lloyd.cpp, lines
552-558): seven of the eight array arguments; `per_sample_inertia` is not
among them. -/
def relocateKeepAliveArgs : List RelocArg :=
  [RelocArg.xT, RelocArg.sampleWeights, RelocArg.assignmentId,
   RelocArg.emptyClustersListArg, RelocArg.sqDistToNearestCentroid,
   RelocArg.centroidT, RelocArg.clusterSizes]

/-- Outcome of `py_relocate_empty_clusters` when validation succeeds: the
element types the dispatched kernel reads and the arguments retained by the
returned keep-alive (host-task) event. -/
structure RelocateResult where
  dataElem : TypeNum
  indElem : TypeNum
  keepAlive : List RelocArg
deriving DecidableEq, Repr

/-- Embedding of `py_relocate_empty_clusters`
(src/python_api/_kmeans_lloyd.cpp, lines 412-561), validation checks in
source order. -/
def py_relocate_empty_clusters (n_empty_clusters : Nat)
    (X_t sample_weights assignment_id empty_clusters_list
     sq_dist_to_nearest_centroid centroid_t cluster_sizes
     per_sample_inertia : NDArray) (q : Nat) : Except String RelocateResult :=
  if X_t.ndim ≠ 2 ∨ sample_weights.ndim ≠ 1 ∨ assignment_id.ndim ≠ 1 ∨
      empty_clusters_list.ndim ≠ 1 ∨ sq_dist_to_nearest_centroid.ndim ≠ 1 ∨
      centroid_t.ndim ≠ 2 ∨ cluster_sizes.ndim ≠ 1 ∨ per_sample_inertia.ndim ≠ 1 then
    .error "Arguments have inconsistent array dimensionality."
  else if allCContiguous [X_t, sample_weights, assignment_id, empty_clusters_list,
      sq_dist_to_nearest_centroid, centroid_t, cluster_sizes, per_sample_inertia] = false then
    .error "Inputs must be C-contiguous"
  else if X_t.dim 1 ≠ sample_weights.dim 0 ∨
      X_t.dim 1 ≠ assignment_id.dim 0 ∨
      X_t.dim 1 ≠ sq_dist_to_nearest_centroid.dim 0 ∨
      empty_clusters_list.dim 0 ≠ centroid_t.dim 1 ∨
      X_t.dim 0 ≠ centroid_t.dim 0 ∨
      empty_clusters_list.dim 0 ≠ cluster_sizes.dim 0 ∨
      X_t.dim 1 ≠ per_sample_inertia.dim 0 then
    .error "Input dimensions are inconsistent"
  else if n_empty_clusters = 0 then
    .error "n_empty_clusters must be non-zero."
  else if queuesCompatible q [X_t.queue, sample_weights.queue, assignment_id.queue,
      empty_clusters_list.queue, sq_dist_to_nearest_centroid.queue,
      centroid_t.queue, cluster_sizes.queue, per_sample_inertia.queue] = false then
    .error "Execution queue is not compatible with allocation queues."
  else if X_t.typenum ≠ sample_weights.typenum ∨
      assignment_id.typenum ≠ empty_clusters_list.typenum ∨
      X_t.typenum ≠ sq_dist_to_nearest_centroid.typenum ∨
      X_t.typenum ≠ centroid_t.typenum ∨
      X_t.typenum ≠ cluster_sizes.typenum ∨
      X_t.typenum ≠ per_sample_inertia.typenum then
    .error "Inconsistent array elemental data types"
  else if (X_t.typenum = TypeNum.float32 ∨ X_t.typenum = TypeNum.float64) ∧
      (assignment_id.typenum = TypeNum.int32 ∨ assignment_id.typenum = TypeNum.int64) then
    .ok { dataElem := X_t.typenum
          indElem := assignment_id.typenum
          keepAlive := relocateKeepAliveArgs }
  else
    .error "Unsupported data types"

/-- Embedding of `py_broadcast_divide` (src/python_api/_kmeans_lloyd.cpp,
lines 27-71), validation checks in source order; on success the returned tag
is the element type of the dispatched kernel instantiation. -/
def py_broadcast_divide (X y : NDArray) (q : Nat) : Except String TypeNum :=
  if X.ndim ≠ 2 ∨ y.ndim ≠ 1 ∨ allCContiguous [X, y] = false then
    .error "Arguments must be a matrix and a vector with C-contiguous layout"
  else if y.dim 0 ≠ X.dim 1 then
    .error "Array dimensions of arguments are not consistent, X.shape[1] != y.shape[0]"
  else if queuesCompatible q [X.queue, y.queue] = false then
    .error "Execution queue is not compatible with allocation queues"
  else if X.typenum ≠ y.typenum then
    .error "Arguments must have the same elemental data types."
  else if y.typenum = TypeNum.float32 ∨ y.typenum = TypeNum.float64 then
    .ok y.typenum
  else
    .error "Unsupported elemental data type. Expecting single or double precision floating point numbers"

/-- Embedding of `py_reduce_centroids_data` (src/python_api/_kmeans_lloyd.cpp,
lines 121-250), validation checks in source order; on success the result is
the dispatched (data, index) element-type pair of the kernel instantiation
(the kernel itself is spec-modelled separately, see `reducedClusterSizes`). -/
def py_reduce_centroids_data
    (cluster_sizes_private_copies centroids_t_private_copies out_cluster_sizes
     out_centroids_t out_empty_clusters_list out_n_empty_clusters : NDArray)
    (q : Nat) : Except String (TypeNum × TypeNum) :=
  if cluster_sizes_private_copies.ndim ≠ 2 ∨ centroids_t_private_copies.ndim ≠ 3 ∨
      out_cluster_sizes.ndim ≠ 1 ∨ out_centroids_t.ndim ≠ 2 ∨
      out_empty_clusters_list.ndim ≠ 1 ∨ out_n_empty_clusters.size ≠ 1 then
    .error "Array dimensions of inputs are not consistent"
  else if cluster_sizes_private_copies.dim 0 ≠ centroids_t_private_copies.dim 0 ∨
      cluster_sizes_private_copies.dim 1 ≠ centroids_t_private_copies.dim 2 ∨
      cluster_sizes_private_copies.dim 1 ≠ out_cluster_sizes.dim 0 ∨
      cluster_sizes_private_copies.dim 1 ≠ out_centroids_t.dim 1 ∨
      centroids_t_private_copies.dim 1 ≠ out_centroids_t.dim 0 ∨
      cluster_sizes_private_copies.dim 1 ≠ out_empty_clusters_list.dim 0 then
    .error "Dimensions mismatch"
  else if cluster_sizes_private_copies.typenum ≠ centroids_t_private_copies.typenum ∨
      cluster_sizes_private_copies.typenum ≠ out_cluster_sizes.typenum ∨
      cluster_sizes_private_copies.typenum ≠ out_centroids_t.typenum ∨
      out_n_empty_clusters.typenum ≠ out_empty_clusters_list.typenum then
    .error "Array element data types must be consisten"
  else if allCContiguous [cluster_sizes_private_copies, centroids_t_private_copies,
      out_cluster_sizes, out_centroids_t, out_empty_clusters_list,
      out_n_empty_clusters] = false then
    .error "All array arguments must be C-contiguous"
  else if queuesCompatible q [cluster_sizes_private_copies.queue,
      centroids_t_private_copies.queue, out_cluster_sizes.queue,
      out_centroids_t.queue, out_empty_clusters_list.queue,
      out_n_empty_clusters.queue] = false then
    .error "Execution queue is not compatible with allocation queues"
  else if (cluster_sizes_private_copies.typenum = TypeNum.float32 ∨
           cluster_sizes_private_copies.typenum = TypeNum.float64) ∧
          (out_n_empty_clusters.typenum = TypeNum.int32 ∨
           out_n_empty_clusters.typenum = TypeNum.int64) then
    .ok (cluster_sizes_private_copies.typenum, out_n_empty_clusters.typenum)
  else
    .error "Unsupported data types"

/-- Embedding of `py_compute_centroid_shifts_squared_kernel`
(src/python_api/_kmeans_lloyd.cpp, lines 563-636), validation checks in
source order; on success the returned tag is the element type of the
dispatched kernel instantiation. -/
def py_compute_centroid_shifts_squared_kernel
    (old_centroid_t new_centroid_t centroid_shifts : NDArray) (q : Nat) :
    Except String TypeNum :=
  if new_centroid_t.ndim ≠ 2 ∨ old_centroid_t.ndim ≠ 2 ∨ centroid_shifts.ndim ≠ 1 then
    .error "Input dimensionalities are not consistent."
  else if old_centroid_t.dim 0 ≠ new_centroid_t.dim 0 ∨
      old_centroid_t.dim 1 ≠ new_centroid_t.dim 1 ∨
      old_centroid_t.dim 1 ≠ centroid_shifts.dim 0 then
    .error "Array dimensions are not consistent."
  else if allCContiguous [new_centroid_t, old_centroid_t, centroid_shifts] = false then
    .error "Arguments must be C-contiguous arrays"
  else if queuesCompatible q [new_centroid_t.queue, old_centroid_t.queue,
      centroid_shifts.queue] = false then
    .error "Execution queue is not compatible with allocation queues"
  else if old_centroid_t.typenum ≠ new_centroid_t.typenum ∨
      old_centroid_t.typenum ≠ centroid_shifts.typenum then
    .error "All array arguments must have the same elemental data types"
  else if old_centroid_t.typenum = TypeNum.float32 ∨
      old_centroid_t.typenum = TypeNum.float64 then
    .ok old_centroid_t.typenum
  else
    .error "Unsupported elemental data type."

/-- Embedding of `py_compute_distances` (src/python_api/_kmeans_lloyd.cpp,
lines 638-719), validation checks in source order (the shape-mismatch
message reproduces the source's spelling); on success the returned tag is
the element type of the dispatched kernel instantiation. -/
def py_compute_distances (X_t centroid_t euclidean_distances_t : NDArray)
    (work_group_size centroids_window_height q : Nat) : Except String TypeNum :=
  if X_t.ndim ≠ 2 ∨ centroid_t.ndim ≠ 2 ∨ euclidean_distances_t.ndim ≠ 2 then
    .error "Input arrays must have dimensionality 2."
  else if allCContiguous [X_t, centroid_t, euclidean_distances_t] = false then
    .error "Input arrays must be C-contiguous."
  else if X_t.dim 0 ≠ centroid_t.dim 0 ∨
      euclidean_distances_t.dim 0 ≠ centroid_t.dim 1 ∨
      X_t.dim 1 ≠ euclidean_distances_t.dim 1 then
    .error "Input array dimensions are not consistant"
  else if queuesCompatible q [X_t.queue, centroid_t.queue,
      euclidean_distances_t.queue] = false then
    .error "Execution queue is not compatible with allocation queues"
  else if X_t.typenum ≠ centroid_t.typenum ∨
      X_t.typenum ≠ euclidean_distances_t.typenum then
    .error "Arrays must have the same elemental data types"
  else if X_t.typenum = TypeNum.float32 ∨ X_t.typenum = TypeNum.float64 then
    .ok X_t.typenum
  else
    .error "Unsupported elemental data type"

/-- Embedding of `py_assignment` (src/python_api/_kmeans_lloyd.cpp, lines
721-815), validation checks in source order; on success the result is the
dispatched (data, index) element-type pair of the kernel instantiation. -/
def py_assignment (X_t centroid_t centroids_half_l2_norm assignment_id : NDArray)
    (centroids_window_height work_group_size q : Nat) :
    Except String (TypeNum × TypeNum) :=
  if X_t.ndim ≠ 2 ∨ centroid_t.ndim ≠ 2 ∨ centroids_half_l2_norm.ndim ≠ 1 ∨
      assignment_id.ndim ≠ 1 then
    .error "Inputs have unexpected dimensionality."
  else if allCContiguous [X_t, centroid_t, centroids_half_l2_norm,
      assignment_id] = false then
    .error "Inputs must be C-contiguous arrays."
  else if X_t.dim 0 ≠ centroid_t.dim 0 ∨
      centroids_half_l2_norm.dim 0 ≠ centroid_t.dim 1 ∨
      X_t.dim 1 ≠ assignment_id.dim 0 then
    .error "Inputs have inconsistent dimensions."
  else if queuesCompatible q [X_t.queue, centroid_t.queue,
      centroids_half_l2_norm.queue, assignment_id.queue] = false then
    .error "Execution queue is incompatible with allocation queues."
  else if X_t.typenum ≠ centroid_t.typenum ∨
      X_t.typenum ≠ centroids_half_l2_norm.typenum then
    .error "Arrays have inconsistent elemental data types"
  else if (X_t.typenum = TypeNum.float32 ∨ X_t.typenum = TypeNum.float64) ∧
      (assignment_id.typenum = TypeNum.int32 ∨ assignment_id.typenum = TypeNum.int64) then
    .ok (X_t.typenum, assignment_id.typenum)
  else
    .error "Unsupported array elemental data type"

/-- A 3-element single-precision vector used to instantiate the theorems. -/
def dataF32Ex : NDArray :=
  { shape := [3], typenum := .float32, contiguous := true, queue := 0, data := [2, 5, 3] }

/-- A 1-element single-precision threshold buffer. -/
def thrF32Ex : NDArray :=
  { shape := [1], typenum := .float32, contiguous := true, queue := 0, data := [0] }

/-- A 2-element single-precision vector (shorter than some `topk` used with it). -/
def dataF32PairEx : NDArray :=
  { shape := [2], typenum := .float32, contiguous := true, queue := 0, data := [1, 4] }

/-- A 3-element double-precision vector. -/
def dataF64Ex : NDArray :=
  { shape := [3], typenum := .float64, contiguous := true, queue := 0, data := [2, 5, 3] }

/-- A 1-element double-precision threshold buffer. -/
def thrF64Ex : NDArray :=
  { shape := [1], typenum := .float64, contiguous := true, queue := 0, data := [0] }

/-- A 3-element 32-bit-integer vector (an element type no kernel supports). -/
def dataInt32Ex : NDArray :=
  { shape := [3], typenum := .int32, contiguous := true, queue := 0, data := [1, 2, 3] }

/-- A 1-element 32-bit-integer buffer with the same (unsupported) typenum. -/
def thrInt32Ex : NDArray :=
  { shape := [1], typenum := .int32, contiguous := true, queue := 0, data := [7] }

/-- A 1-element single-precision distance vector. -/
def distLen1Ex : NDArray :=
  { shape := [1], typenum := .float32, contiguous := true, queue := 0, data := [0] }

/-- A 1-element 32-bit-integer index buffer. -/
def idxLen1Ex : NDArray :=
  { shape := [1], typenum := .int32, contiguous := true, queue := 0, data := [0] }

/-- A 1-element 32-bit-integer counter buffer. -/
def cntLen1Ex : NDArray :=
  { shape := [1], typenum := .int32, contiguous := true, queue := 0, data := [0] }

/-- A 2-row, 3-column single-precision matrix. -/
def Xrows2cols3Ex : NDArray :=
  { shape := [2, 3], typenum := .float32, contiguous := true, queue := 0,
    data := [1, 2, 3, 4, 5, 6] }

/-- A vector sized to the row count of `Xrows2cols3Ex`. -/
def yLen2Ex : NDArray :=
  { shape := [2], typenum := .float32, contiguous := true, queue := 0, data := [0, 0] }

/-- A vector sized to the column count of `Xrows2cols3Ex`. -/
def yLen3Ex : NDArray :=
  { shape := [3], typenum := .float32, contiguous := true, queue := 0, data := [0, 0, 0] }

/-- A 1-feature, 1-sample single-precision sample matrix. -/
def Xt11Ex : NDArray :=
  { shape := [1, 1], typenum := .float32, contiguous := true, queue := 0, data := [0] }

/-- A 1-element single-precision weight vector. -/
def w1Ex : NDArray :=
  { shape := [1], typenum := .float32, contiguous := true, queue := 0, data := [1] }

/-- A 1-element 32-bit-integer assignment vector. -/
def aid1Ex : NDArray :=
  { shape := [1], typenum := .int32, contiguous := true, queue := 0, data := [0] }

/-- A 1-element 32-bit-integer empty-cluster list. -/
def ecl1Ex : NDArray :=
  { shape := [1], typenum := .int32, contiguous := true, queue := 0, data := [0] }

/-- A 1-element single-precision squared-distance vector. -/
def sqd1Ex : NDArray :=
  { shape := [1], typenum := .float32, contiguous := true, queue := 0, data := [0] }

/-- A 1-feature, 1-cluster single-precision centroid matrix. -/
def ct11Ex : NDArray :=
  { shape := [1, 1], typenum := .float32, contiguous := true, queue := 0, data := [0] }

/-- A 1-element single-precision cluster-size vector. -/
def cs1Ex : NDArray :=
  { shape := [1], typenum := .float32, contiguous := true, queue := 0, data := [1] }

/-- A 1-element single-precision per-sample-inertia vector. -/
def psi1Ex : NDArray :=
  { shape := [1], typenum := .float32, contiguous := true, queue := 0, data := [0] }

theorem listMax_mem (l : List ℚ) (h : l ≠ []) : listMax l ∈ l := by
  induction l with
  | nil => exact absurd rfl h
  | cons a t ih =>
    cases t with
    | nil => simp [listMax]
    | cons b t2 =>
      rcases max_choice a (listMax (b :: t2)) with h1 | h1
      · simp [listMax, h1]
      · have hm := ih (by simp)
        simp only [listMax, h1]
        exact List.mem_cons_of_mem a hm

theorem le_listMax (l : List ℚ) (x : ℚ) (hx : x ∈ l) : x ≤ listMax l := by
  induction l with
  | nil => cases hx
  | cons a t ih =>
    cases t with
    | nil =>
      rcases List.mem_cons.1 hx with rfl | h
      · simp [listMax]
      · cases h
    | cons b t2 =>
      rcases List.mem_cons.1 hx with rfl | h
      · simp [listMax]
      · have := ih h
        simp only [listMax]
        exact le_max_of_le_right this

theorem sortedDesc_sorted (l : List ℚ) : (sortedDesc l).Sorted (· ≥ ·) :=
  List.sorted_insertionSort _ l

theorem sortedDesc_perm (l : List ℚ) : List.Perm (sortedDesc l) l :=
  List.perm_insertionSort _ l

theorem sortedDesc_eq_cons (l : List ℚ) (h : l ≠ []) :
    sortedDesc l = listMax l :: sortedDesc (l.erase (listMax l)) := by
  apply List.eq_of_perm_of_sorted (r := (· ≥ ·))
  · have p1 : List.Perm (sortedDesc l) l := sortedDesc_perm l
    have p2 : List.Perm l (listMax l :: l.erase (listMax l)) :=
      List.perm_cons_erase (listMax_mem l h)
    have p3 : List.Perm (sortedDesc (l.erase (listMax l))) (l.erase (listMax l)) :=
      sortedDesc_perm _
    exact (p1.trans p2).trans (List.Perm.cons _ p3.symm)
  · exact sortedDesc_sorted l
  · refine List.sorted_cons.2 ⟨?_, sortedDesc_sorted _⟩
    intro b hb
    have hb' : b ∈ l.erase (listMax l) := (sortedDesc_perm _).mem_iff.1 hb
    exact le_listMax l b (List.mem_of_mem_erase hb')

theorem selectLargest_eq_sortedDesc (k : Nat) :
    ∀ l : List ℚ, k < l.length → selectLargest l k = (sortedDesc l).getD k 0 := by
  induction k with
  | zero =>
    intro l hl
    have hne : l ≠ [] := List.ne_nil_of_length_pos hl
    rw [sortedDesc_eq_cons l hne]
    rfl
  | succ k ih =>
    intro l hl
    have hne : l ≠ [] := List.ne_nil_of_length_pos (Nat.lt_of_le_of_lt (Nat.zero_le _) hl)
    have hm : listMax l ∈ l := listMax_mem l hne
    have hlen : (l.erase (listMax l)).length = l.length - 1 :=
      List.length_erase_of_mem hm
    have hk : k < (l.erase (listMax l)).length := by omega
    have hstep : selectLargest l (k + 1) = selectLargest (l.erase (listMax l)) k := rfl
    rw [hstep, ih _ hk, sortedDesc_eq_cons l hne]
    rfl

theorem compute_threshold_kernel_eq_nthLargest (data : List ℚ) (topk : Nat)
    (h1 : 1 ≤ topk) (h2 : topk ≤ data.length) :
    compute_threshold_kernel data topk = nthLargest data topk := by
  have h : topk - 1 < data.length := by omega
  exact selectLargest_eq_sortedDesc (topk - 1) data h

theorem nthLargest_mem (l : List ℚ) (t : Nat) (h1 : 1 ≤ t) (h2 : t ≤ l.length) :
    nthLargest l t ∈ l := by
  have hlen : (sortedDesc l).length = l.length := (sortedDesc_perm l).length_eq
  have hidx : t - 1 < (sortedDesc l).length := by omega
  have : nthLargest l t ∈ sortedDesc l := by
    unfold nthLargest
    rw [List.getD_eq_getElem _ _ hidx]
    exact List.getElem_mem _
  exact (sortedDesc_perm l).mem_iff.1 this

theorem foldSum_eq_sum (n : Nat) (f : Nat → ℚ) :
    foldSum n f = ∑ c ∈ Finset.range n, f c := by
  induction n with
  | zero => simp [foldSum]
  | succ n ih =>
    have hstep : foldSum (n + 1) f = foldSum n f + f n := by
      simp [foldSum, List.range_succ]
    rw [hstep, ih, Finset.sum_range_succ]

theorem length_filter_range_eq_card (K : Nat) (p : Nat → Prop) [DecidablePred p] :
    ((List.range K).filter (fun k => decide (p k))).length =
      ((Finset.range K).filter p).card := by
  induction K with
  | zero => simp
  | succ K ih =>
    rw [List.range_succ, List.filter_append, List.length_append, Finset.range_succ,
        Finset.filter_insert]
    by_cases h : p K
    · have hnot : K ∉ (Finset.range K).filter p := by
        simp [Finset.mem_filter]
      rw [if_pos h, Finset.card_insert_of_not_mem hnot]
      simp [h, ih]
    · rw [if_neg h]
      simp [h, ih]

/-- C3: for every set of `n_copies` private copies of per-cluster sizes and
coordinate sums, the reduction produces output cluster sizes equal to the
elementwise sum across copies, output coordinate sums equal to the sum across
copies, an empty-cluster list containing exactly the ids of clusters whose
reduced size is zero (each present exactly once), and an empty-count scalar
equal to the number of such clusters. -/
theorem reduce_centroids_data_correct (nCopies nClusters : Nat)
    (sizesPC : Nat → Nat → ℚ) (sumsPC : Nat → Nat → Nat → ℚ) :
    (∀ k, reducedClusterSizes nCopies sizesPC k = ∑ c ∈ Finset.range nCopies, sizesPC c k)
    ∧ (∀ f k, reducedCentroidsT nCopies sumsPC f k = ∑ c ∈ Finset.range nCopies, sumsPC c f k)
    ∧ (∀ k, k ∈ emptyClustersList nCopies nClusters sizesPC ↔
        k < nClusters ∧ reducedClusterSizes nCopies sizesPC k = 0)
    ∧ (emptyClustersList nCopies nClusters sizesPC).Nodup
    ∧ nEmptyClusters nCopies nClusters sizesPC =
        ((Finset.range nClusters).filter
          (fun k => reducedClusterSizes nCopies sizesPC k = 0)).card := by
  refine ⟨fun k => foldSum_eq_sum _ _, fun f k => foldSum_eq_sum _ _, ?_, ?_, ?_⟩
  · intro k
    simp [emptyClustersList, List.mem_filter, List.mem_range]
  · exact (List.nodup_range nClusters).filter _
  · exact length_filter_range_eq_card nClusters _

/-- C4 counterexample: with distance vector `[0]`, threshold `5` and
`n_selected = 1` (so `1 ≤ n_selected ≤ n_samples`), the selection writes no
index at all, not exactly one. -/
theorem select_far_samples_exact_count_fails :
    1 ≤ ([(0 : ℚ)]).length ∧
    (select_samples_far_from_centroid_kernel [(0 : ℚ)] 5 1).out.length ≠ 1 := by
  constructor
  · decide
  · decide

/-- C4 (amended): whenever the threshold satisfies
`#gt ≤ n_selected ≤ #gt + #eq` — as the caller guarantees by taking the
threshold from `compute_threshold` with `topk = n_selected` — the selection
writes exactly `n_selected` indices, every strictly-greater index precedes
every equal-to-threshold index, and the strictly-greater count plus the
number of equal-to-threshold indices actually used equals `n_selected`. -/
theorem select_far_samples_partition (dist : List ℚ) (thr : ℚ) (s : Nat)
    (h1 : (gtIndices dist thr).length ≤ s)
    (h2 : s ≤ (gtIndices dist thr).length + (eqIndices dist thr).length) :
    (select_samples_far_from_centroid_kernel dist thr s).out
      = gtIndices dist thr ++ (eqIndices dist thr).take (s - (gtIndices dist thr).length)
    ∧ (select_samples_far_from_centroid_kernel dist thr s).out.length = s
    ∧ (select_samples_far_from_centroid_kernel dist thr s).gtCount +
        ((select_samples_far_from_centroid_kernel dist thr s).out.length -
          (select_samples_far_from_centroid_kernel dist thr s).gtCount) = s
    ∧ (∀ i ∈ gtIndices dist thr, thr < dist.getD i 0)
    ∧ (∀ i ∈ (eqIndices dist thr).take (s - (gtIndices dist thr).length),
        dist.getD i 0 = thr) := by
  have hout : (select_samples_far_from_centroid_kernel dist thr s).out
      = gtIndices dist thr ++ (eqIndices dist thr).take (s - (gtIndices dist thr).length) := by
    show (gtIndices dist thr ++ eqIndices dist thr).take s = _
    rw [List.take_append_eq_append_take, List.take_of_length_le h1]
  have hlen : (select_samples_far_from_centroid_kernel dist thr s).out.length = s := by
    show ((gtIndices dist thr ++ eqIndices dist thr).take s).length = s
    rw [List.length_take, List.length_append]
    omega
  have hgtc : (select_samples_far_from_centroid_kernel dist thr s).gtCount
      = (gtIndices dist thr).length := rfl
  refine ⟨hout, hlen, ?_, ?_, ?_⟩
  · rw [hlen, hgtc]
    omega
  · intro i hi
    have h := List.mem_filter.1 hi
    simpa using h.2
  · intro i hi
    have h := List.mem_filter.1 (List.mem_of_mem_take hi)
    simpa using h.2

/-- C1 counterexample: on a concrete non-empty 1-D double-precision data
array with `1 ≤ topk ≤ n`, the dispatched double branch reads the buffers
through `get_data<float>()` (a byte reinterpretation, source line 293), so
the value written is not determined to be the t-th largest of the data: the
faithful model records `thresholdOut = none`, which differs from a
one-element buffer holding the order statistic. -/
theorem compute_threshold_double_order_statistic_fails :
    dataF64Ex.ndim = 1 ∧ 1 ≤ 2 ∧ 2 ≤ dataF64Ex.dim 0
    ∧ py_compute_threshold dataF64Ex 2 thrF64Ex 0 =
        .ok { thresholdOut := none, dispatched := true,
              kernelElem := some TypeNum.float32 }
    ∧ (none : Option (List ℚ)) ≠ some [nthLargest dataF64Ex.data 2] :=
  ⟨by decide, by decide, by decide, by rfl, by simp⟩

/-- C1 (amended): for every non-empty 1-D SINGLE-precision data array and
every `topk = t` with `1 ≤ t ≤ n`, `py_compute_threshold` dispatches the
selection kernel and writes the t-th largest element of the data (the order
statistic, computed by partial selection, not a full sort) into the
one-element threshold output; the written value is an element of the data
array.  On double-precision arrays the dispatch reinterprets the buffers as
float (the C2 defect), so the order-statistic guarantee does not hold
there. -/
theorem compute_threshold_writes_order_statistic
    (data threshold : NDArray) (q topk : Nat)
    (hnd : data.ndim = 1)
    (hwf : data.data.length = data.dim 0)
    (hc : allCContiguous [data, threshold] = true)
    (hts : threshold.size = 1)
    (hty : data.typenum = threshold.typenum)
    (hf : data.typenum = TypeNum.float32)
    (hq : queuesCompatible q [data.queue, threshold.queue] = true)
    (h1 : 1 ≤ topk) (h2 : topk ≤ data.dim 0) :
    py_compute_threshold data topk threshold q =
      .ok { thresholdOut := some [nthLargest data.data topk]
            dispatched := true
            kernelElem := some TypeNum.float32 }
    ∧ nthLargest data.data topk ∈ data.data := by
  have hk : compute_threshold_kernel data.data topk = nthLargest data.data topk :=
    compute_threshold_kernel_eq_nthLargest _ _ h1 (by omega)
  have c1 : ¬(data.ndim ≠ 1 ∨ allCContiguous [data, threshold] = false) := by
    simp [hnd, hc]
  have c2 : ¬(threshold.size ≠ 1) := by simp [hts]
  have c3 : ¬(data.typenum ≠ threshold.typenum) := by simp [hty]
  have c4 : ¬(queuesCompatible q [data.queue, threshold.queue] = false) := by simp [hq]
  have c5 : ¬(topk = 0) := by omega
  constructor
  · unfold py_compute_threshold
    rw [if_neg c1, if_neg c2, if_neg c3, if_neg c4, if_neg c5, if_pos hf, hk]
  · exact nthLargest_mem _ _ h1 (by omega)

/-- C1 witness: data `[2, 5, 3]` with `topk = 2` writes the second-largest
value. -/
theorem compute_threshold_writes_order_statistic_witness :
    py_compute_threshold dataF32Ex 2 thrF32Ex 0 =
      .ok { thresholdOut := some [nthLargest dataF32Ex.data 2]
            dispatched := true
            kernelElem := some TypeNum.float32 }
    ∧ nthLargest dataF32Ex.data 2 ∈ dataF32Ex.data :=
  compute_threshold_writes_order_statistic dataF32Ex thrF32Ex 0 2
    (by decide) (by decide) (by decide) (by decide) (by decide) (by decide)
    (by decide) (by decide) (by decide)

/-- C2 (code evaluated at the failing configuration): with double-precision
data and threshold arrays and `topk ≥ 1`, the dispatch takes the
`UAR_DOUBLE_` branch, which instantiates the kernel at element type float
(`using dataT = float`, source line 293) and reads both buffers as float,
so the written value is not determined at value level. -/
theorem compute_threshold_double_branch_uses_float_kernel
    (data threshold : NDArray) (q topk : Nat)
    (hnd : data.ndim = 1)
    (hc : allCContiguous [data, threshold] = true)
    (hts : threshold.size = 1)
    (hty : data.typenum = threshold.typenum)
    (hf : data.typenum = TypeNum.float64)
    (hq : queuesCompatible q [data.queue, threshold.queue] = true)
    (h1 : 1 ≤ topk) :
    py_compute_threshold data topk threshold q =
      .ok { thresholdOut := none
            dispatched := true
            kernelElem := some TypeNum.float32 }
    ∧ some TypeNum.float32 ≠ some TypeNum.float64 := by
  have c1 : ¬(data.ndim ≠ 1 ∨ allCContiguous [data, threshold] = false) := by
    simp [hnd, hc]
  have c2 : ¬(threshold.size ≠ 1) := by simp [hts]
  have c3 : ¬(data.typenum ≠ threshold.typenum) := by simp [hty]
  have c4 : ¬(queuesCompatible q [data.queue, threshold.queue] = false) := by simp [hq]
  have c5 : ¬(topk = 0) := by omega
  have hnf : ¬(data.typenum = TypeNum.float32) := by simp [hf]
  constructor
  · unfold py_compute_threshold
    rw [if_neg c1, if_neg c2, if_neg c3, if_neg c4, if_neg c5, if_neg hnf, if_pos hf]
  · decide

/-- C2 witness: a concrete double-precision call dispatches the
float-instantiated kernel. -/
theorem compute_threshold_double_branch_uses_float_kernel_witness :
    py_compute_threshold dataF64Ex 1 thrF64Ex 0 =
      .ok { thresholdOut := none
            dispatched := true
            kernelElem := some TypeNum.float32 }
    ∧ some TypeNum.float32 ≠ some TypeNum.float64 :=
  compute_threshold_double_branch_uses_float_kernel dataF64Ex thrF64Ex 0 1
    (by decide) (by decide) (by decide) (by decide) (by decide) (by decide)
    (by decide)

/-- C5: for every pair of arrays passing the argument validation (of any
matching element type), calling `py_compute_threshold` with `topk = 0`
returns immediately without dispatching a kernel and leaves the threshold
output buffer unchanged. -/
theorem compute_threshold_topk_zero_noop
    (data threshold : NDArray) (q : Nat)
    (hnd : data.ndim = 1)
    (hc : allCContiguous [data, threshold] = true)
    (hts : threshold.size = 1)
    (hty : data.typenum = threshold.typenum)
    (hq : queuesCompatible q [data.queue, threshold.queue] = true) :
    py_compute_threshold data 0 threshold q =
      .ok { thresholdOut := some threshold.data, dispatched := false, kernelElem := none } := by
  have c1 : ¬(data.ndim ≠ 1 ∨ allCContiguous [data, threshold] = false) := by
    simp [hnd, hc]
  have c2 : ¬(threshold.size ≠ 1) := by simp [hts]
  have c3 : ¬(data.typenum ≠ threshold.typenum) := by simp [hty]
  have c4 : ¬(queuesCompatible q [data.queue, threshold.queue] = false) := by simp [hq]
  unfold py_compute_threshold
  rw [if_neg c1, if_neg c2, if_neg c3, if_neg c4, if_pos rfl]

/-- C5 witness: a concrete `topk = 0` call is a no-op. -/
theorem compute_threshold_topk_zero_noop_witness :
    py_compute_threshold dataF32Ex 0 thrF32Ex 0 =
      .ok { thresholdOut := some thrF32Ex.data, dispatched := false, kernelElem := none } :=
  compute_threshold_topk_zero_noop dataF32Ex thrF32Ex 0
    (by decide) (by decide) (by decide) (by decide) (by decide)

/-- C6 counterexample: a 32-bit-integer data/threshold pair (an unsupported
element type) called with `topk = 0` is not rejected: the call returns the
no-op success before reaching the element-type dispatch. -/
theorem compute_threshold_topk_zero_skips_dtype_check :
    dataInt32Ex.typenum ≠ TypeNum.float32
    ∧ dataInt32Ex.typenum ≠ TypeNum.float64
    ∧ py_compute_threshold dataInt32Ex 0 thrInt32Ex 0 =
        .ok { thresholdOut := some [7], dispatched := false, kernelElem := none } :=
  ⟨by decide, by decide, by rfl⟩

/-- C6 (amended): every operation rejects argument combinations whose
element types are not single/double-precision floats (or whose index types
are not 32/64-bit integers) synchronously with an error — except
`compute_threshold` called with `topk = 0`, which returns the documented
no-op before reaching the element-type dispatch and therefore does not
reject an unsupported (matching) element type. -/
theorem unsupported_dtypes_rejected_all_operations :
    (∀ (data threshold : NDArray) (q topk : Nat),
      data.ndim = 1 → allCContiguous [data, threshold] = true →
      threshold.size = 1 → data.typenum = threshold.typenum →
      queuesCompatible q [data.queue, threshold.queue] = true →
      data.typenum ≠ TypeNum.float32 → data.typenum ≠ TypeNum.float64 →
      1 ≤ topk →
      py_compute_threshold data topk threshold q =
        .error "Unsupported elemental data type. Expect single- or double- floating-point types.")
    ∧ (∀ (data threshold : NDArray) (q : Nat),
        data.ndim = 1 → allCContiguous [data, threshold] = true →
        threshold.size = 1 → data.typenum = threshold.typenum →
        queuesCompatible q [data.queue, threshold.queue] = true →
        data.typenum ≠ TypeNum.float32 → data.typenum ≠ TypeNum.float64 →
        py_compute_threshold data 0 threshold q =
          .ok { thresholdOut := some threshold.data, dispatched := false,
                kernelElem := none })
    ∧ (∀ (X y : NDArray) (q : Nat),
        X.ndim = 2 → y.ndim = 1 → allCContiguous [X, y] = true →
        y.dim 0 = X.dim 1 → queuesCompatible q [X.queue, y.queue] = true →
        X.typenum = y.typenum →
        ¬(y.typenum = TypeNum.float32 ∨ y.typenum = TypeNum.float64) →
        py_broadcast_divide X y q =
          .error "Unsupported elemental data type. Expecting single or double precision floating point numbers")
    ∧ (∀ (X y : NDArray) (q : Nat),
        X.ndim = 2 → y.ndim = 1 → allCContiguous [X, y] = true →
        y.dim 0 = X.dim 1 → queuesCompatible q [X.queue, y.queue] = true →
        X.typenum = y.typenum →
        ¬(y.typenum = TypeNum.float32 ∨ y.typenum = TypeNum.float64) →
        py_half_l2_norm_squared X y q =
          .error "Unsupported elemental data type. Expecting single or double precision floating point numbers")
    ∧ (∀ (b1 b2 b3 b4 b5 b6 : NDArray) (q : Nat),
        b1.ndim = 2 → b2.ndim = 3 → b3.ndim = 1 → b4.ndim = 2 → b5.ndim = 1 →
        b6.size = 1 →
        b1.dim 0 = b2.dim 0 → b1.dim 1 = b2.dim 2 → b1.dim 1 = b3.dim 0 →
        b1.dim 1 = b4.dim 1 → b2.dim 1 = b4.dim 0 → b1.dim 1 = b5.dim 0 →
        b1.typenum = b2.typenum → b1.typenum = b3.typenum →
        b1.typenum = b4.typenum → b6.typenum = b5.typenum →
        allCContiguous [b1, b2, b3, b4, b5, b6] = true →
        queuesCompatible q [b1.queue, b2.queue, b3.queue, b4.queue, b5.queue,
          b6.queue] = true →
        ¬((b1.typenum = TypeNum.float32 ∨ b1.typenum = TypeNum.float64) ∧
          (b6.typenum = TypeNum.int32 ∨ b6.typenum = TypeNum.int64)) →
        py_reduce_centroids_data b1 b2 b3 b4 b5 b6 q =
          .error "Unsupported data types")
    ∧ (∀ (n : Nat) (dC thrC selC gtCnt eqCnt : NDArray) (q : Nat),
        n ≠ 0 → dC.ndim = 1 → selC.ndim = 1 → thrC.size = 1 →
        gtCnt.size = 1 → eqCnt.size = 1 →
        ¬(dC.dim 0 < n) → ¬(selC.dim 0 < n) →
        allCContiguous [dC, selC] = true →
        dC.typenum = thrC.typenum →
        selC.typenum = gtCnt.typenum → selC.typenum = eqCnt.typenum →
        queuesCompatible q [dC.queue, thrC.queue, selC.queue, gtCnt.queue,
          eqCnt.queue] = true →
        ¬((dC.typenum = TypeNum.float32 ∨ dC.typenum = TypeNum.float64) ∧
          (selC.typenum = TypeNum.int32 ∨ selC.typenum = TypeNum.int64)) →
        py_select_samples_far_from_centroid n dC thrC selC gtCnt eqCnt q =
          .error "Unsupported data types")
    ∧ (∀ (n : Nat) (a1 a2 a3 a4 a5 a6 a7 a8 : NDArray) (q : Nat),
        a1.ndim = 2 → a2.ndim = 1 → a3.ndim = 1 → a4.ndim = 1 → a5.ndim = 1 →
        a6.ndim = 2 → a7.ndim = 1 → a8.ndim = 1 →
        allCContiguous [a1, a2, a3, a4, a5, a6, a7, a8] = true →
        a1.dim 1 = a2.dim 0 → a1.dim 1 = a3.dim 0 → a1.dim 1 = a5.dim 0 →
        a4.dim 0 = a6.dim 1 → a1.dim 0 = a6.dim 0 → a4.dim 0 = a7.dim 0 →
        a1.dim 1 = a8.dim 0 →
        n ≠ 0 →
        queuesCompatible q [a1.queue, a2.queue, a3.queue, a4.queue, a5.queue,
          a6.queue, a7.queue, a8.queue] = true →
        a1.typenum = a2.typenum → a3.typenum = a4.typenum →
        a1.typenum = a5.typenum → a1.typenum = a6.typenum →
        a1.typenum = a7.typenum → a1.typenum = a8.typenum →
        ¬((a1.typenum = TypeNum.float32 ∨ a1.typenum = TypeNum.float64) ∧
          (a3.typenum = TypeNum.int32 ∨ a3.typenum = TypeNum.int64)) →
        py_relocate_empty_clusters n a1 a2 a3 a4 a5 a6 a7 a8 q =
          .error "Unsupported data types")
    ∧ (∀ (oldC newC shifts : NDArray) (q : Nat),
        newC.ndim = 2 → oldC.ndim = 2 → shifts.ndim = 1 →
        oldC.dim 0 = newC.dim 0 → oldC.dim 1 = newC.dim 1 →
        oldC.dim 1 = shifts.dim 0 →
        allCContiguous [newC, oldC, shifts] = true →
        queuesCompatible q [newC.queue, oldC.queue, shifts.queue] = true →
        oldC.typenum = newC.typenum → oldC.typenum = shifts.typenum →
        ¬(oldC.typenum = TypeNum.float32 ∨ oldC.typenum = TypeNum.float64) →
        py_compute_centroid_shifts_squared_kernel oldC newC shifts q =
          .error "Unsupported elemental data type.")
    ∧ (∀ (Xm ctm edm : NDArray) (wgs cwh q : Nat),
        Xm.ndim = 2 → ctm.ndim = 2 → edm.ndim = 2 →
        allCContiguous [Xm, ctm, edm] = true →
        Xm.dim 0 = ctm.dim 0 → edm.dim 0 = ctm.dim 1 → Xm.dim 1 = edm.dim 1 →
        queuesCompatible q [Xm.queue, ctm.queue, edm.queue] = true →
        Xm.typenum = ctm.typenum → Xm.typenum = edm.typenum →
        ¬(Xm.typenum = TypeNum.float32 ∨ Xm.typenum = TypeNum.float64) →
        py_compute_distances Xm ctm edm wgs cwh q =
          .error "Unsupported elemental data type")
    ∧ (∀ (Xm ctm hlm aidm : NDArray) (cwh wgs q : Nat),
        Xm.ndim = 2 → ctm.ndim = 2 → hlm.ndim = 1 → aidm.ndim = 1 →
        allCContiguous [Xm, ctm, hlm, aidm] = true →
        Xm.dim 0 = ctm.dim 0 → hlm.dim 0 = ctm.dim 1 → Xm.dim 1 = aidm.dim 0 →
        queuesCompatible q [Xm.queue, ctm.queue, hlm.queue, aidm.queue] = true →
        Xm.typenum = ctm.typenum → Xm.typenum = hlm.typenum →
        ¬((Xm.typenum = TypeNum.float32 ∨ Xm.typenum = TypeNum.float64) ∧
          (aidm.typenum = TypeNum.int32 ∨ aidm.typenum = TypeNum.int64)) →
        py_assignment Xm ctm hlm aidm cwh wgs q =
          .error "Unsupported array elemental data type") := by
  refine ⟨?_, ?_, ?_, ?_, ?_, ?_, ?_, ?_, ?_, ?_⟩
  · intro data threshold q topk hnd hc hts hty hq hn1 hn2 h1
    have c1 : ¬(data.ndim ≠ 1 ∨ allCContiguous [data, threshold] = false) := by
      simp [hnd, hc]
    have c2 : ¬(threshold.size ≠ 1) := by simp [hts]
    have c3 : ¬(data.typenum ≠ threshold.typenum) := by simp [hty]
    have c4 : ¬(queuesCompatible q [data.queue, threshold.queue] = false) := by
      simp [hq]
    have c5 : ¬(topk = 0) := by omega
    unfold py_compute_threshold
    rw [if_neg c1, if_neg c2, if_neg c3, if_neg c4, if_neg c5, if_neg hn1, if_neg hn2]
  · intro data threshold q hnd hc hts hty hq hn1 hn2
    have c1 : ¬(data.ndim ≠ 1 ∨ allCContiguous [data, threshold] = false) := by
      simp [hnd, hc]
    have c2 : ¬(threshold.size ≠ 1) := by simp [hts]
    have c3 : ¬(data.typenum ≠ threshold.typenum) := by simp [hty]
    have c4 : ¬(queuesCompatible q [data.queue, threshold.queue] = false) := by
      simp [hq]
    unfold py_compute_threshold
    rw [if_neg c1, if_neg c2, if_neg c3, if_neg c4, if_pos rfl]
  · intro X y q hx hy hc hlen hq hty hun
    have c1 : ¬(X.ndim ≠ 2 ∨ y.ndim ≠ 1 ∨ allCContiguous [X, y] = false) := by
      simp [hx, hy, hc]
    have c2 : ¬(y.dim 0 ≠ X.dim 1) := by simp [hlen]
    have c3 : ¬(queuesCompatible q [X.queue, y.queue] = false) := by simp [hq]
    have c4 : ¬(X.typenum ≠ y.typenum) := by simp [hty]
    unfold py_broadcast_divide
    rw [if_neg c1, if_neg c2, if_neg c3, if_neg c4, if_neg hun]
  · intro X y q hx hy hc hlen hq hty hun
    have c1 : ¬(X.ndim ≠ 2 ∨ y.ndim ≠ 1 ∨ allCContiguous [X, y] = false) := by
      simp [hx, hy, hc]
    have c2 : ¬(y.dim 0 ≠ X.dim 1) := by simp [hlen]
    have c3 : ¬(queuesCompatible q [X.queue, y.queue] = false) := by simp [hq]
    have c4 : ¬(X.typenum ≠ y.typenum) := by simp [hty]
    unfold py_half_l2_norm_squared
    rw [if_neg c1, if_neg c2, if_neg c3, if_neg c4, if_neg hun]
  · intro b1 b2 b3 b4 b5 b6 q hd1 hd2 hd3 hd4 hd5 hd6 hs1 hs2 hs3 hs4 hs5 hs6
      ht1 ht2 ht3 ht4 hcont hq hun
    have c1 : ¬(b1.ndim ≠ 2 ∨ b2.ndim ≠ 3 ∨ b3.ndim ≠ 1 ∨ b4.ndim ≠ 2 ∨
        b5.ndim ≠ 1 ∨ b6.size ≠ 1) := by
      simp [hd1, hd2, hd3, hd4, hd5, hd6]
    have c2 : ¬(b1.dim 0 ≠ b2.dim 0 ∨ b1.dim 1 ≠ b2.dim 2 ∨ b1.dim 1 ≠ b3.dim 0 ∨
        b1.dim 1 ≠ b4.dim 1 ∨ b2.dim 1 ≠ b4.dim 0 ∨ b1.dim 1 ≠ b5.dim 0) := by
      push_neg
      exact ⟨hs1, hs2, hs3, hs4, hs5, hs6⟩
    have c3 : ¬(b1.typenum ≠ b2.typenum ∨ b1.typenum ≠ b3.typenum ∨
        b1.typenum ≠ b4.typenum ∨ b6.typenum ≠ b5.typenum) := by
      push_neg
      exact ⟨ht1, ht2, ht3, ht4⟩
    have c4 : ¬(allCContiguous [b1, b2, b3, b4, b5, b6] = false) := by simp [hcont]
    have c5 : ¬(queuesCompatible q [b1.queue, b2.queue, b3.queue, b4.queue,
        b5.queue, b6.queue] = false) := by simp [hq]
    unfold py_reduce_centroids_data
    rw [if_neg c1, if_neg c2, if_neg c3, if_neg c4, if_neg c5, if_neg hun]
  · intro n dC thrC selC gtCnt eqCnt q hn h1 h2 h3 h4 h5 hbound hsel hcont hdt
      hit1 hit2 hq hun
    have c2 : ¬(dC.ndim ≠ 1 ∨ selC.ndim ≠ 1 ∨ thrC.size ≠ 1 ∨ gtCnt.size ≠ 1 ∨
        eqCnt.size ≠ 1) := by
      simp [h1, h2, h3, h4, h5]
    have c3 : ¬(allCContiguous [dC, selC] = false) := by simp [hcont]
    have c4 : ¬(dC.typenum ≠ thrC.typenum) := by simp [hdt]
    have c5 : ¬(selC.typenum ≠ gtCnt.typenum ∨ selC.typenum ≠ eqCnt.typenum) := by
      push_neg
      exact ⟨hit1, hit2⟩
    have c6 : ¬(queuesCompatible q [dC.queue, thrC.queue, selC.queue,
        gtCnt.queue, eqCnt.queue] = false) := by simp [hq]
    unfold py_select_samples_far_from_centroid
    rw [if_neg hn, if_neg c2, if_neg hbound, if_neg hsel, if_neg c3, if_neg c4,
        if_neg c5, if_neg c6, if_neg hun]
  · intro n a1 a2 a3 a4 a5 a6 a7 a8 q hd1 hd2 hd3 hd4 hd5 hd6 hd7 hd8 hcont
      hs1 hs2 hs3 hs4 hs5 hs6 hs7 hn hq ht1 ht2 ht3 ht4 ht5 ht6 hun
    have c1 : ¬(a1.ndim ≠ 2 ∨ a2.ndim ≠ 1 ∨ a3.ndim ≠ 1 ∨ a4.ndim ≠ 1 ∨
        a5.ndim ≠ 1 ∨ a6.ndim ≠ 2 ∨ a7.ndim ≠ 1 ∨ a8.ndim ≠ 1) := by
      simp [hd1, hd2, hd3, hd4, hd5, hd6, hd7, hd8]
    have c2 : ¬(allCContiguous [a1, a2, a3, a4, a5, a6, a7, a8] = false) := by
      simp [hcont]
    have c3 : ¬(a1.dim 1 ≠ a2.dim 0 ∨ a1.dim 1 ≠ a3.dim 0 ∨ a1.dim 1 ≠ a5.dim 0 ∨
        a4.dim 0 ≠ a6.dim 1 ∨ a1.dim 0 ≠ a6.dim 0 ∨ a4.dim 0 ≠ a7.dim 0 ∨
        a1.dim 1 ≠ a8.dim 0) := by
      push_neg
      exact ⟨hs1, hs2, hs3, hs4, hs5, hs6, hs7⟩
    have c5 : ¬(queuesCompatible q [a1.queue, a2.queue, a3.queue, a4.queue,
        a5.queue, a6.queue, a7.queue, a8.queue] = false) := by simp [hq]
    have c6 : ¬(a1.typenum ≠ a2.typenum ∨ a3.typenum ≠ a4.typenum ∨
        a1.typenum ≠ a5.typenum ∨ a1.typenum ≠ a6.typenum ∨
        a1.typenum ≠ a7.typenum ∨ a1.typenum ≠ a8.typenum) := by
      push_neg
      exact ⟨ht1, ht2, ht3, ht4, ht5, ht6⟩
    unfold py_relocate_empty_clusters
    rw [if_neg c1, if_neg c2, if_neg c3, if_neg hn, if_neg c5, if_neg c6,
        if_neg hun]
  · intro oldC newC shifts q hd1 hd2 hd3 hs1 hs2 hs3 hcont hq ht1 ht2 hun
    have c1 : ¬(newC.ndim ≠ 2 ∨ oldC.ndim ≠ 2 ∨ shifts.ndim ≠ 1) := by
      simp [hd1, hd2, hd3]
    have c2 : ¬(oldC.dim 0 ≠ newC.dim 0 ∨ oldC.dim 1 ≠ newC.dim 1 ∨
        oldC.dim 1 ≠ shifts.dim 0) := by
      push_neg
      exact ⟨hs1, hs2, hs3⟩
    have c3 : ¬(allCContiguous [newC, oldC, shifts] = false) := by simp [hcont]
    have c4 : ¬(queuesCompatible q [newC.queue, oldC.queue, shifts.queue] =
        false) := by simp [hq]
    have c5 : ¬(oldC.typenum ≠ newC.typenum ∨ oldC.typenum ≠ shifts.typenum) := by
      push_neg
      exact ⟨ht1, ht2⟩
    unfold py_compute_centroid_shifts_squared_kernel
    rw [if_neg c1, if_neg c2, if_neg c3, if_neg c4, if_neg c5, if_neg hun]
  · intro Xm ctm edm wgs cwh q hd1 hd2 hd3 hcont hs1 hs2 hs3 hq ht1 ht2 hun
    have c1 : ¬(Xm.ndim ≠ 2 ∨ ctm.ndim ≠ 2 ∨ edm.ndim ≠ 2) := by
      simp [hd1, hd2, hd3]
    have c2 : ¬(allCContiguous [Xm, ctm, edm] = false) := by simp [hcont]
    have c3 : ¬(Xm.dim 0 ≠ ctm.dim 0 ∨ edm.dim 0 ≠ ctm.dim 1 ∨
        Xm.dim 1 ≠ edm.dim 1) := by
      push_neg
      exact ⟨hs1, hs2, hs3⟩
    have c4 : ¬(queuesCompatible q [Xm.queue, ctm.queue, edm.queue] = false) := by
      simp [hq]
    have c5 : ¬(Xm.typenum ≠ ctm.typenum ∨ Xm.typenum ≠ edm.typenum) := by
      push_neg
      exact ⟨ht1, ht2⟩
    unfold py_compute_distances
    rw [if_neg c1, if_neg c2, if_neg c3, if_neg c4, if_neg c5, if_neg hun]
  · intro Xm ctm hlm aidm cwh wgs q hd1 hd2 hd3 hd4 hcont hs1 hs2 hs3 hq ht1
      ht2 hun
    have c1 : ¬(Xm.ndim ≠ 2 ∨ ctm.ndim ≠ 2 ∨ hlm.ndim ≠ 1 ∨ aidm.ndim ≠ 1) := by
      simp [hd1, hd2, hd3, hd4]
    have c2 : ¬(allCContiguous [Xm, ctm, hlm, aidm] = false) := by simp [hcont]
    have c3 : ¬(Xm.dim 0 ≠ ctm.dim 0 ∨ hlm.dim 0 ≠ ctm.dim 1 ∨
        Xm.dim 1 ≠ aidm.dim 0) := by
      push_neg
      exact ⟨hs1, hs2, hs3⟩
    have c4 : ¬(queuesCompatible q [Xm.queue, ctm.queue, hlm.queue,
        aidm.queue] = false) := by simp [hq]
    have c5 : ¬(Xm.typenum ≠ ctm.typenum ∨ Xm.typenum ≠ hlm.typenum) := by
      push_neg
      exact ⟨ht1, ht2⟩
    unfold py_assignment
    rw [if_neg c1, if_neg c2, if_neg c3, if_neg c4, if_neg c5, if_neg hun]

/-- C6 witness: a concrete 32-bit-integer call with `topk = 1` is rejected,
while the same arrays with `topk = 0` are accepted as a no-op. -/
theorem unsupported_dtypes_rejected_all_operations_witness :
    py_compute_threshold dataInt32Ex 1 thrInt32Ex 0 =
      .error "Unsupported elemental data type. Expect single- or double- floating-point types."
    ∧ py_compute_threshold dataInt32Ex 0 thrInt32Ex 0 =
      .ok { thresholdOut := some thrInt32Ex.data, dispatched := false,
            kernelElem := none } :=
  ⟨unsupported_dtypes_rejected_all_operations.1 dataInt32Ex thrInt32Ex 0 1
     (by decide) (by decide) (by decide) (by decide) (by decide) (by decide)
     (by decide) (by decide),
   unsupported_dtypes_rejected_all_operations.2.1 dataInt32Ex thrInt32Ex 0
     (by decide) (by decide) (by decide) (by decide) (by decide) (by decide)
     (by decide)⟩

/-- C10: `py_compute_threshold` never compares `topk` with the data length:
every `topk ≥ 1` — with no upper bound — passes argument validation and
dispatches the kernel. -/
theorem compute_threshold_no_topk_bound_check
    (data threshold : NDArray) (q topk : Nat)
    (hnd : data.ndim = 1)
    (hc : allCContiguous [data, threshold] = true)
    (hts : threshold.size = 1)
    (hty : data.typenum = threshold.typenum)
    (hf : data.typenum = TypeNum.float32)
    (hq : queuesCompatible q [data.queue, threshold.queue] = true)
    (h1 : 1 ≤ topk) :
    py_compute_threshold data topk threshold q =
      .ok { thresholdOut := some [compute_threshold_kernel data.data topk]
            dispatched := true
            kernelElem := some TypeNum.float32 } := by
  have c1 : ¬(data.ndim ≠ 1 ∨ allCContiguous [data, threshold] = false) := by
    simp [hnd, hc]
  have c2 : ¬(threshold.size ≠ 1) := by simp [hts]
  have c3 : ¬(data.typenum ≠ threshold.typenum) := by simp [hty]
  have c4 : ¬(queuesCompatible q [data.queue, threshold.queue] = false) := by simp [hq]
  have c5 : ¬(topk = 0) := by omega
  unfold py_compute_threshold
  rw [if_neg c1, if_neg c2, if_neg c3, if_neg c4, if_neg c5, if_pos hf]

/-- C10 witness: `topk = 5` on a 2-element data array passes validation and
dispatches the kernel. -/
theorem compute_threshold_no_topk_bound_check_witness :
    dataF32PairEx.dim 0 < 5
    ∧ py_compute_threshold dataF32PairEx 5 thrF32Ex 0 =
        .ok { thresholdOut := some [compute_threshold_kernel dataF32PairEx.data 5]
              dispatched := true
              kernelElem := some TypeNum.float32 } :=
  ⟨by decide,
   compute_threshold_no_topk_bound_check dataF32PairEx thrF32Ex 0 5
     (by decide) (by decide) (by decide) (by decide) (by decide) (by decide)
     (by decide)⟩

/-- C7: invalid scalar parameters are rejected synchronously with an error
(hence before any kernel dispatch): `select_samples_far_from_centroid`
rejects `n_selected = 0` and `n_selected` larger than the sample count, and
`relocate_empty_clusters` rejects `n_empty_clusters = 0`. -/
theorem invalid_scalar_parameters_rejected :
    (∀ (dC thrC selC gtCnt eqCnt : NDArray) (q : Nat),
      py_select_samples_far_from_centroid 0 dC thrC selC gtCnt eqCnt q =
        .error "Argument `n_selected` must be positive")
    ∧ (∀ (n : Nat) (dC thrC selC gtCnt eqCnt : NDArray) (q : Nat),
        n ≠ 0 → dC.ndim = 1 → selC.ndim = 1 → thrC.size = 1 →
        gtCnt.size = 1 → eqCnt.size = 1 → dC.dim 0 < n →
        py_select_samples_far_from_centroid n dC thrC selC gtCnt eqCnt q =
          .error "Argument `n_select` is too large")
    ∧ (∀ (a1 a2 a3 a4 a5 a6 a7 a8 : NDArray) (q : Nat),
        a1.ndim = 2 → a2.ndim = 1 → a3.ndim = 1 → a4.ndim = 1 → a5.ndim = 1 →
        a6.ndim = 2 → a7.ndim = 1 → a8.ndim = 1 →
        allCContiguous [a1, a2, a3, a4, a5, a6, a7, a8] = true →
        a1.dim 1 = a2.dim 0 → a1.dim 1 = a3.dim 0 → a1.dim 1 = a5.dim 0 →
        a4.dim 0 = a6.dim 1 → a1.dim 0 = a6.dim 0 → a4.dim 0 = a7.dim 0 →
        a1.dim 1 = a8.dim 0 →
        py_relocate_empty_clusters 0 a1 a2 a3 a4 a5 a6 a7 a8 q =
          .error "n_empty_clusters must be non-zero.") := by
  refine ⟨?_, ?_, ?_⟩
  · intro dC thrC selC gtCnt eqCnt q
    unfold py_select_samples_far_from_centroid
    rw [if_pos rfl]
  · intro n dC thrC selC gtCnt eqCnt q hn h1 h2 h3 h4 h5 hlt
    have c2 : ¬(dC.ndim ≠ 1 ∨ selC.ndim ≠ 1 ∨ thrC.size ≠ 1 ∨ gtCnt.size ≠ 1 ∨
        eqCnt.size ≠ 1) := by
      simp [h1, h2, h3, h4, h5]
    unfold py_select_samples_far_from_centroid
    rw [if_neg hn, if_neg c2, if_pos hlt]
  · intro a1 a2 a3 a4 a5 a6 a7 a8 q hd1 hd2 hd3 hd4 hd5 hd6 hd7 hd8 hcont
      hs1 hs2 hs3 hs4 hs5 hs6 hs7
    have c1 : ¬(a1.ndim ≠ 2 ∨ a2.ndim ≠ 1 ∨ a3.ndim ≠ 1 ∨ a4.ndim ≠ 1 ∨ a5.ndim ≠ 1 ∨
        a6.ndim ≠ 2 ∨ a7.ndim ≠ 1 ∨ a8.ndim ≠ 1) := by
      simp [hd1, hd2, hd3, hd4, hd5, hd6, hd7, hd8]
    have c2 : ¬(allCContiguous [a1, a2, a3, a4, a5, a6, a7, a8] = false) := by
      simp [hcont]
    have c3 : ¬(a1.dim 1 ≠ a2.dim 0 ∨ a1.dim 1 ≠ a3.dim 0 ∨ a1.dim 1 ≠ a5.dim 0 ∨
        a4.dim 0 ≠ a6.dim 1 ∨ a1.dim 0 ≠ a6.dim 0 ∨ a4.dim 0 ≠ a7.dim 0 ∨
        a1.dim 1 ≠ a8.dim 0) := by
      push_neg
      exact ⟨hs1, hs2, hs3, hs4, hs5, hs6, hs7⟩
    unfold py_relocate_empty_clusters
    rw [if_neg c1, if_neg c2, if_neg c3, if_pos rfl]

/-- C7 witness: `n_selected = 5` against a 1-sample distance vector is
rejected as oversized. -/
theorem invalid_scalar_parameters_rejected_witness :
    py_select_samples_far_from_centroid 5 distLen1Ex thrF32Ex idxLen1Ex
        cntLen1Ex cntLen1Ex 0 =
      .error "Argument `n_select` is too large" :=
  invalid_scalar_parameters_rejected.2.1 5 distLen1Ex thrF32Ex idxLen1Ex
    cntLen1Ex cntLen1Ex 0
    (by decide) (by decide) (by decide) (by decide) (by decide) (by decide)
    (by decide)

/-- C8 counterexample: a 2-row, 3-column matrix with an output vector sized
to the row count (K = 2, the shape the claim says passes) fails the shape
validation — the source requires the vector length to equal the column
count (`y.get_shape(0) == X.get_shape(1)`). -/
theorem half_l2_norm_row_count_vector_rejected :
    Xrows2cols3Ex.ndim = 2 ∧ Xrows2cols3Ex.dim 0 = 2 ∧ Xrows2cols3Ex.dim 1 = 3
    ∧ yLen2Ex.ndim = 1 ∧ yLen2Ex.dim 0 = Xrows2cols3Ex.dim 0
    ∧ py_half_l2_norm_squared Xrows2cols3Ex yLen2Ex 0 =
        .error "Array dimensions of arguments are not consistent, X.shape[1] != y.shape[0]" :=
  ⟨by decide, by decide, by decide, by decide, by decide, by rfl⟩

/-- C8 (amended): `half_l2_norm_squared` requires the output vector length
to equal the COLUMN count of the matrix: for every 2-D matrix and 1-D output
vector of length equal to the column count, the call passes shape validation
and produces the per-column half-squared-L2-norm values, one per column. -/
theorem half_l2_norm_vector_matches_column_count (X y : NDArray) (q : Nat)
    (hx : X.ndim = 2) (hy : y.ndim = 1)
    (hc : allCContiguous [X, y] = true)
    (hlen : y.dim 0 = X.dim 1)
    (hq : queuesCompatible q [X.queue, y.queue] = true)
    (hty : X.typenum = y.typenum)
    (hfl : y.typenum = TypeNum.float32 ∨ y.typenum = TypeNum.float64) :
    py_half_l2_norm_squared X y q =
      .ok { out := half_l2_norm_kernel_model (X.dim 0) (X.dim 1) X.data }
    ∧ (half_l2_norm_kernel_model (X.dim 0) (X.dim 1) X.data).length = X.dim 1 := by
  have c1 : ¬(X.ndim ≠ 2 ∨ y.ndim ≠ 1 ∨ allCContiguous [X, y] = false) := by
    simp [hx, hy, hc]
  have c2 : ¬(y.dim 0 ≠ X.dim 1) := by simp [hlen]
  have c3 : ¬(queuesCompatible q [X.queue, y.queue] = false) := by simp [hq]
  have c4 : ¬(X.typenum ≠ y.typenum) := by simp [hty]
  constructor
  · unfold py_half_l2_norm_squared
    rw [if_neg c1, if_neg c2, if_neg c3, if_neg c4, if_pos hfl]
  · simp [half_l2_norm_kernel_model]

/-- C8 witness: the 2×3 matrix with a length-3 (column-count) output vector
is accepted. -/
theorem half_l2_norm_vector_matches_column_count_witness :
    py_half_l2_norm_squared Xrows2cols3Ex yLen3Ex 0 =
      .ok { out := half_l2_norm_kernel_model (Xrows2cols3Ex.dim 0)
              (Xrows2cols3Ex.dim 1) Xrows2cols3Ex.data }
    ∧ (half_l2_norm_kernel_model (Xrows2cols3Ex.dim 0) (Xrows2cols3Ex.dim 1)
        Xrows2cols3Ex.data).length = Xrows2cols3Ex.dim 1 :=
  half_l2_norm_vector_matches_column_count Xrows2cols3Ex yLen3Ex 0
    (by decide) (by decide) (by decide) (by decide) (by decide) (by decide)
    (by decide)

/-- C9 (code evaluated at the failing configuration): a fully valid
`relocate_empty_clusters` call succeeds, yet the argument list its keep-alive
event retains has only seven entries and omits `per_sample_inertia`, the
in-place-mutated inertia vector. -/
theorem relocate_keep_alive_omits_inertia
    (n : Nat) (a1 a2 a3 a4 a5 a6 a7 a8 : NDArray) (q : Nat)
    (hd1 : a1.ndim = 2) (hd2 : a2.ndim = 1) (hd3 : a3.ndim = 1) (hd4 : a4.ndim = 1)
    (hd5 : a5.ndim = 1) (hd6 : a6.ndim = 2) (hd7 : a7.ndim = 1) (hd8 : a8.ndim = 1)
    (hcont : allCContiguous [a1, a2, a3, a4, a5, a6, a7, a8] = true)
    (hs1 : a1.dim 1 = a2.dim 0) (hs2 : a1.dim 1 = a3.dim 0) (hs3 : a1.dim 1 = a5.dim 0)
    (hs4 : a4.dim 0 = a6.dim 1) (hs5 : a1.dim 0 = a6.dim 0) (hs6 : a4.dim 0 = a7.dim 0)
    (hs7 : a1.dim 1 = a8.dim 0)
    (hn : n ≠ 0)
    (hq : queuesCompatible q [a1.queue, a2.queue, a3.queue, a4.queue, a5.queue,
            a6.queue, a7.queue, a8.queue] = true)
    (ht1 : a1.typenum = a2.typenum) (ht2 : a3.typenum = a4.typenum)
    (ht3 : a1.typenum = a5.typenum) (ht4 : a1.typenum = a6.typenum)
    (ht5 : a1.typenum = a7.typenum) (ht6 : a1.typenum = a8.typenum)
    (hdataT : a1.typenum = TypeNum.float32 ∨ a1.typenum = TypeNum.float64)
    (hindT : a3.typenum = TypeNum.int32 ∨ a3.typenum = TypeNum.int64) :
    py_relocate_empty_clusters n a1 a2 a3 a4 a5 a6 a7 a8 q =
      .ok { dataElem := a1.typenum, indElem := a3.typenum,
            keepAlive := relocateKeepAliveArgs }
    ∧ RelocArg.perSampleInertia ∉ relocateKeepAliveArgs
    ∧ relocateKeepAliveArgs.length = 7 := by
  have c1 : ¬(a1.ndim ≠ 2 ∨ a2.ndim ≠ 1 ∨ a3.ndim ≠ 1 ∨ a4.ndim ≠ 1 ∨ a5.ndim ≠ 1 ∨
      a6.ndim ≠ 2 ∨ a7.ndim ≠ 1 ∨ a8.ndim ≠ 1) := by
    simp [hd1, hd2, hd3, hd4, hd5, hd6, hd7, hd8]
  have c2 : ¬(allCContiguous [a1, a2, a3, a4, a5, a6, a7, a8] = false) := by
    simp [hcont]
  have c3 : ¬(a1.dim 1 ≠ a2.dim 0 ∨ a1.dim 1 ≠ a3.dim 0 ∨ a1.dim 1 ≠ a5.dim 0 ∨
      a4.dim 0 ≠ a6.dim 1 ∨ a1.dim 0 ≠ a6.dim 0 ∨ a4.dim 0 ≠ a7.dim 0 ∨
      a1.dim 1 ≠ a8.dim 0) := by
    push_neg
    exact ⟨hs1, hs2, hs3, hs4, hs5, hs6, hs7⟩
  have c5 : ¬(queuesCompatible q [a1.queue, a2.queue, a3.queue, a4.queue, a5.queue,
      a6.queue, a7.queue, a8.queue] = false) := by
    simp [hq]
  have c6 : ¬(a1.typenum ≠ a2.typenum ∨ a3.typenum ≠ a4.typenum ∨
      a1.typenum ≠ a5.typenum ∨ a1.typenum ≠ a6.typenum ∨
      a1.typenum ≠ a7.typenum ∨ a1.typenum ≠ a8.typenum) := by
    push_neg
    exact ⟨ht1, ht2, ht3, ht4, ht5, ht6⟩
  refine ⟨?_, by decide, by decide⟩
  unfold py_relocate_empty_clusters
  rw [if_neg c1, if_neg c2, if_neg c3, if_neg hn, if_neg c5, if_neg c6,
      if_pos ⟨hdataT, hindT⟩]

/-- C9 witness: a concrete valid relocation call whose keep-alive list omits
the per-sample inertia vector. -/
theorem relocate_keep_alive_omits_inertia_witness :
    py_relocate_empty_clusters 1 Xt11Ex w1Ex aid1Ex ecl1Ex sqd1Ex ct11Ex cs1Ex
        psi1Ex 0 =
      .ok { dataElem := Xt11Ex.typenum, indElem := aid1Ex.typenum,
            keepAlive := relocateKeepAliveArgs }
    ∧ RelocArg.perSampleInertia ∉ relocateKeepAliveArgs
    ∧ relocateKeepAliveArgs.length = 7 :=
  relocate_keep_alive_omits_inertia 1 Xt11Ex w1Ex aid1Ex ecl1Ex sqd1Ex ct11Ex
    cs1Ex psi1Ex 0
    (by decide) (by decide) (by decide) (by decide) (by decide) (by decide)
    (by decide) (by decide) (by decide) (by decide) (by decide) (by decide)
    (by decide) (by decide) (by decide) (by decide) (by decide) (by decide)
    (by decide) (by decide) (by decide) (by decide) (by decide) (by decide)
    (by decide) (by decide)

/-- C4 witness: distances `[5, 3, 3]`, threshold `3`, `n_selected = 2`
selects the strictly-greater index 0 first, then one equal-to-threshold
index. -/
theorem select_far_samples_partition_witness :
    (select_samples_far_from_centroid_kernel [(5 : ℚ), 3, 3] 3 2).out
      = gtIndices [(5 : ℚ), 3, 3] 3 ++
        (eqIndices [(5 : ℚ), 3, 3] 3).take (2 - (gtIndices [(5 : ℚ), 3, 3] 3).length)
    ∧ (select_samples_far_from_centroid_kernel [(5 : ℚ), 3, 3] 3 2).out.length = 2
    ∧ (select_samples_far_from_centroid_kernel [(5 : ℚ), 3, 3] 3 2).gtCount +
        ((select_samples_far_from_centroid_kernel [(5 : ℚ), 3, 3] 3 2).out.length -
          (select_samples_far_from_centroid_kernel [(5 : ℚ), 3, 3] 3 2).gtCount) = 2
    ∧ (∀ i ∈ gtIndices [(5 : ℚ), 3, 3] 3, (3 : ℚ) < ([(5 : ℚ), 3, 3]).getD i 0)
    ∧ (∀ i ∈ (eqIndices [(5 : ℚ), 3, 3] 3).take
          (2 - (gtIndices [(5 : ℚ), 3, 3] 3).length),
        ([(5 : ℚ), 3, 3]).getD i 0 = 3) :=
  select_far_samples_partition [(5 : ℚ), 3, 3] 3 2 (by decide) (by decide)
